import Mathlib

/-!
Shallow embedding of the gostratum/metricsx Go package.

Conventions of the embedding:
* Go `float64` metric values (bucket boundaries, quantile objectives,
  observed values) are modelled as rationals; the development only stores
  and compares them, it never performs float arithmetic.
* Go `time.Time` / `time.Duration` are modelled as integer nanosecond
  counts of one monotonic clock; `Duration.Seconds()` is division by 1e9.
* Go maps keyed by strings are modelled as association lists; pointer
  identity of a metric instance is modelled by a numeric `id` allocated
  from a counter at creation time, so two distinct allocations never
  compare equal.
* Methods that in Go mutate the provider through its mutex are modelled
  as explicit state-passing functions on `prometheusProviderState`.
-/

namespace Metricsx

/-- Mirror of `Options` in metrics.go: help text, label names, histogram
buckets, summary objectives, namespace and subsystem overrides. -/
structure Options where
  Help : String
  Labels : List String
  Buckets : List ℚ
  Objectives : List (ℚ × ℚ)
  Namespace : String
  Subsystem : String
deriving DecidableEq, Repr

/-- Mirror of the Go `Option` functional-modifier type (`func(*Options)`),
modelled as a pure update function. -/
def OptionMod : Type := Options → Options

/-- Mirror of `WithHelp` in metrics.go. -/
def WithHelp (help : String) : OptionMod := fun o => { o with Help := help }

/-- Mirror of `WithLabels` in metrics.go. -/
def WithLabels (labels : List String) : OptionMod := fun o => { o with Labels := labels }

/-- Mirror of `WithBuckets` in metrics.go. -/
def WithBuckets (buckets : List ℚ) : OptionMod := fun o => { o with Buckets := buckets }

/-- Mirror of `WithObjectives` in metrics.go. -/
def WithObjectives (objectives : List (ℚ × ℚ)) : OptionMod :=
  fun o => { o with Objectives := objectives }

/-- Mirror of `WithNamespace` in metrics.go. -/
def WithNamespace (ns : String) : OptionMod := fun o => { o with Namespace := ns }

/-- Mirror of `WithSubsystem` in metrics.go. -/
def WithSubsystem (sub : String) : OptionMod := fun o => { o with Subsystem := sub }

/-- Mirror of `DefaultBuckets` in metrics.go:
0.001, 0.005, 0.01, 0.05, 0.1, 0.5, 1, 5, 10. -/
def DefaultBuckets : List ℚ :=
  [1/1000, 5/1000, 1/100, 5/100, 1/10, 1/2, 1, 5, 10]

/-- Mirror of `DefaultObjectives` in metrics.go:
0.5 ↦ 0.05, 0.9 ↦ 0.01, 0.99 ↦ 0.001. -/
def DefaultObjectives : List (ℚ × ℚ) :=
  [(1/2, 5/100), (9/10, 1/100), (99/100, 1/1000)]

/-- Mirror of `applyOptions` in metrics.go: start from the zero value with
Labels, Buckets and Objectives pre-seeded, then apply each modifier in
call order. -/
def applyOptions (opts : List OptionMod) : Options :=
  opts.foldl (fun o f => f o)
    { Help := ""
      Labels := []
      Buckets := DefaultBuckets
      Objectives := DefaultObjectives
      Namespace := ""
      Subsystem := "" }

/-- Mirror of `PrometheusConfig` in config.go. -/
structure PrometheusConfig where
  Namespace : String
  Subsystem : String
  Path : String
  Port : Int
  EnableProcessMetrics : Bool
  EnableGoMetrics : Bool
deriving DecidableEq, Repr

/-- Mirror of `Config` in config.go. -/
structure Config where
  Enabled : Bool
  Provider : String
  Prometheus : PrometheusConfig
deriving DecidableEq, Repr

/-- Mirror of `prometheusProvider.namespace` in provider_prometheus.go:
the per-metric override when non-empty, else the provider-wide default.
(Named `namespaceOf` because `namespace` is a Lean keyword.) -/
def namespaceOf (cfg : PrometheusConfig) (options : Options) : String :=
  if options.Namespace ≠ "" then options.Namespace else cfg.Namespace

/-- Mirror of `prometheusProvider.subsystem` in provider_prometheus.go. -/
def subsystemOf (cfg : PrometheusConfig) (options : Options) : String :=
  if options.Subsystem ≠ "" then options.Subsystem else cfg.Subsystem

/-- Mirror of `prometheusProvider.metricKey` in provider_prometheus.go:
`fmt.Sprintf("%s_%s_%s", namespace, subsystem, name)`. -/
def metricKey (cfg : PrometheusConfig) (name : String) (options : Options) : String :=
  namespaceOf cfg options ++ "_" ++ subsystemOf cfg options ++ "_" ++ name

/-- The resolved metric identity triple from the spec:
(resolved namespace, resolved subsystem, name). -/
def metricIdentity (cfg : PrometheusConfig) (name : String) (options : Options) :
    String × String × String :=
  (namespaceOf cfg options, subsystemOf cfg options, name)

/-- Mirror of `prometheusCounterVec` in provider_prometheus.go: the `vec`
pointer is modelled by the allocation id. -/
structure prometheusCounterVec where
  id : Nat
  labels : List String
deriving DecidableEq, Repr

/-- Mirror of `prometheusGaugeVec` in provider_prometheus.go. -/
structure prometheusGaugeVec where
  id : Nat
  labels : List String
deriving DecidableEq, Repr

/-- Mirror of `prometheusHistogramVec` in provider_prometheus.go. -/
structure prometheusHistogramVec where
  id : Nat
  labels : List String
deriving DecidableEq, Repr

/-- Mirror of `prometheusSummaryVec` in provider_prometheus.go. -/
structure prometheusSummaryVec where
  id : Nat
  labels : List String
deriving DecidableEq, Repr

/-- The mutable part of `prometheusProvider`: the four key → instance maps
(association lists), the set of registry registrations performed through
`MustRegister`, and the allocation counter modelling pointer freshness. -/
structure prometheusProviderState where
  counters : List (String × prometheusCounterVec)
  gauges : List (String × prometheusGaugeVec)
  histograms : List (String × prometheusHistogramVec)
  summaries : List (String × prometheusSummaryVec)
  registered : List String
  nextId : Nat
deriving DecidableEq, Repr

/-- Mirror of `newPrometheusProvider` in provider_prometheus.go: fresh
empty maps; process/Go collectors registered into the registry when the
corresponding config flags are set. -/
def newPrometheusProviderState (cfg : PrometheusConfig) : prometheusProviderState :=
  { counters := []
    gauges := []
    histograms := []
    summaries := []
    registered :=
      (if cfg.EnableProcessMetrics then ["process_collector"] else []) ++
      (if cfg.EnableGoMetrics then ["go_collector"] else [])
    nextId := 0 }

/-- Mirror of `prometheusProvider.Counter` in provider_prometheus.go:
under the lock, compute the key; on a hit return the cached instance and
leave the state untouched; on a miss build a new CounterVec from the
options, register it, cache it under the key, and return it. -/
def prometheusCounter (cfg : PrometheusConfig) (s : prometheusProviderState)
    (name : String) (options : Options) :
    prometheusCounterVec × prometheusProviderState :=
  let key := metricKey cfg name options
  match s.counters.lookup key with
  | some c => (c, s)
  | none =>
    let c : prometheusCounterVec := { id := s.nextId, labels := options.Labels }
    (c, { s with
          counters := s.counters ++ [(key, c)]
          registered := s.registered ++ [key]
          nextId := s.nextId + 1 })

/-- Mirror of `prometheusProvider.Gauge` in provider_prometheus.go. -/
def prometheusGauge (cfg : PrometheusConfig) (s : prometheusProviderState)
    (name : String) (options : Options) :
    prometheusGaugeVec × prometheusProviderState :=
  let key := metricKey cfg name options
  match s.gauges.lookup key with
  | some g => (g, s)
  | none =>
    let g : prometheusGaugeVec := { id := s.nextId, labels := options.Labels }
    (g, { s with
          gauges := s.gauges ++ [(key, g)]
          registered := s.registered ++ [key]
          nextId := s.nextId + 1 })

/-- Mirror of `prometheusProvider.Histogram` in provider_prometheus.go. -/
def prometheusHistogram (cfg : PrometheusConfig) (s : prometheusProviderState)
    (name : String) (options : Options) :
    prometheusHistogramVec × prometheusProviderState :=
  let key := metricKey cfg name options
  match s.histograms.lookup key with
  | some h => (h, s)
  | none =>
    let h : prometheusHistogramVec := { id := s.nextId, labels := options.Labels }
    (h, { s with
          histograms := s.histograms ++ [(key, h)]
          registered := s.registered ++ [key]
          nextId := s.nextId + 1 })

/-- Mirror of `prometheusProvider.Summary` in provider_prometheus.go. -/
def prometheusSummary (cfg : PrometheusConfig) (s : prometheusProviderState)
    (name : String) (options : Options) :
    prometheusSummaryVec × prometheusProviderState :=
  let key := metricKey cfg name options
  match s.summaries.lookup key with
  | some sm => (sm, s)
  | none =>
    let sm : prometheusSummaryVec := { id := s.nextId, labels := options.Labels }
    (sm, { s with
          summaries := s.summaries ++ [(key, sm)]
          registered := s.registered ++ [key]
          nextId := s.nextId + 1 })

/-- One create-or-retrieve call against the provider, used to quantify
over arbitrary interleavings of calls during the provider's lifetime. -/
inductive MetricOp where
  | counter (name : String) (options : Options)
  | gauge (name : String) (options : Options)
  | histogram (name : String) (options : Options)
  | summary (name : String) (options : Options)

/-- The state reached after one create-or-retrieve call. -/
def runOp (cfg : PrometheusConfig) (s : prometheusProviderState) :
    MetricOp → prometheusProviderState
  | .counter name options => (prometheusCounter cfg s name options).2
  | .gauge name options => (prometheusGauge cfg s name options).2
  | .histogram name options => (prometheusHistogram cfg s name options).2
  | .summary name options => (prometheusSummary cfg s name options).2

/-- The state reached after a sequence of create-or-retrieve calls. -/
def runOps (cfg : PrometheusConfig) (s : prometheusProviderState)
    (ops : List MetricOp) : prometheusProviderState :=
  ops.foldl (runOp cfg) s

/-- The sentinel error `http.ErrServerClosed`, the one ListenAndServe
error that `Start`'s background goroutine does not log. -/
def ErrServerClosed : String := "http: Server closed"

/-- Observable outcome of `prometheusProvider.Start`: the value returned
to the caller, whether a dedicated server was configured and spawned,
whether the background goroutine logged an error, and whether the call
blocked past spawning the goroutine. -/
structure StartOutcome where
  returned : Option String
  serverConfigured : Bool
  asyncErrorLogged : Bool
  blocksPastSpawn : Bool
deriving DecidableEq, Repr

/-- Mirror of `prometheusProvider.Start` in provider_prometheus.go.
The eventual result of the background goroutine's `ListenAndServe` call
(`none` would be a nil error; `some e` the error message, e.g. a bind
failure) is passed in as a parameter, since it is decided by the network
environment. With Port = 0 nothing is started; otherwise the server is
spawned in a goroutine and the method returns nil immediately, the
goroutine logging any ListenAndServe error other than ErrServerClosed. -/
def prometheusStart (cfg : PrometheusConfig) (listenAndServeResult : Option String) :
    StartOutcome :=
  if cfg.Port = 0 then
    { returned := none
      serverConfigured := false
      asyncErrorLogged := false
      blocksPastSpawn := false }
  else
    { returned := none
      serverConfigured := true
      asyncErrorLogged :=
        match listenAndServeResult with
        | some e => decide (e ≠ ErrServerClosed)
        | none => false
      blocksPastSpawn := false }

/-- Backend state of one histogram vec: the sequence of observations
(value in seconds, label values) recorded into it. -/
structure HistogramData where
  observations : List (ℚ × List String)
deriving DecidableEq, Repr

/-- Mirror of `prometheusHistogramVec.Observe`:
`vec.WithLabelValues(labels...).Observe(value)`. -/
def histObserve (h : HistogramData) (value : ℚ) (labels : List String) : HistogramData :=
  { observations := h.observations ++ [(value, labels)] }

/-- Mirror of `prometheusTimer` in provider_prometheus.go: captured label
values and the start timestamp (nanoseconds of the monotonic clock). -/
structure prometheusTimer where
  labels : List String
  start : Int
deriving DecidableEq, Repr

/-- Mirror of `prometheusHistogramVec.Timer`: captures the current
timestamp `now` and the label values. -/
def prometheusHistogramTimer (labels : List String) (now : Int) : prometheusTimer :=
  { labels := labels, start := now }

/-- Nanoseconds per second, the divisor of Go's `Duration.Seconds()`. -/
def nanosPerSecond : Int := 1000000000

/-- Go `Duration.Seconds()`: the duration expressed in seconds. -/
def durationSeconds (d : Int) : ℚ := (d : ℚ) / (nanosPerSecond : ℚ)

/-- Mirror of `prometheusTimer.ObserveDuration`: observe
`time.Since(start).Seconds()` into the parent histogram under the
captured labels, discarding the duration. `now` is the current reading of
the same clock that produced `start`. -/
def timerObserveDuration (t : prometheusTimer) (now : Int) (h : HistogramData) :
    HistogramData :=
  histObserve h (durationSeconds (now - t.start)) t.labels

/-- Mirror of `prometheusTimer.Stop`: compute `duration = now - start`,
observe `duration.Seconds()` into the parent histogram under the captured
labels, and return the duration. -/
def timerStop (t : prometheusTimer) (now : Int) (h : HistogramData) :
    Int × HistogramData :=
  (now - t.start, histObserve h (durationSeconds (now - t.start)) t.labels)

/-- No-op backend (noop provider source file): `Start` always returns a
nil error. -/
def noopStart : Option String := none

/-- No-op backend: `Stop` always returns a nil error. -/
def noopStop : Option String := none

/-- `noopCounter.Inc`: empty body, the world `w` is left unchanged. -/
def noopCounterInc {α : Type} (labels : List String) (w : α) : α := w

/-- `noopCounter.Add`: empty body. -/
def noopCounterAdd {α : Type} (value : ℚ) (labels : List String) (w : α) : α := w

/-- `noopGauge.Set`: empty body. -/
def noopGaugeSet {α : Type} (value : ℚ) (labels : List String) (w : α) : α := w

/-- `noopGauge.Inc`: empty body. -/
def noopGaugeInc {α : Type} (labels : List String) (w : α) : α := w

/-- `noopGauge.Dec`: empty body. -/
def noopGaugeDec {α : Type} (labels : List String) (w : α) : α := w

/-- `noopGauge.Add`: empty body. -/
def noopGaugeAdd {α : Type} (value : ℚ) (labels : List String) (w : α) : α := w

/-- `noopGauge.Sub`: empty body. -/
def noopGaugeSub {α : Type} (value : ℚ) (labels : List String) (w : α) : α := w

/-- `noopHistogram.Observe`: empty body. -/
def noopHistogramObserve {α : Type} (value : ℚ) (labels : List String) (w : α) : α := w

/-- `noopSummary.Observe`: empty body. -/
def noopSummaryObserve {α : Type} (value : ℚ) (labels : List String) (w : α) : α := w

/-- `noopTimer.ObserveDuration`: empty body. -/
def noopTimerObserveDuration {α : Type} (w : α) : α := w

/-- `noopTimer.Stop`: returns the zero duration, world unchanged. -/
def noopTimerStop {α : Type} (w : α) : Int × α := (0, w)

/-- Which provider `NewMetrics` selected, with the config it captured. -/
inductive SelectedProvider where
  | prometheus (cfg : PrometheusConfig)
  | noop
deriving DecidableEq, Repr

/-- The warning message logged by `NewMetrics` for an unknown provider. -/
def unknownProviderWarning : String := "unknown metrics provider, using noop"

/-- Observable result of `NewMetrics` in module.go: the selected provider
and the warnings logged while selecting it. -/
structure NewMetricsResult where
  provider : SelectedProvider
  warnings : List String
deriving DecidableEq, Repr

/-- Mirror of `NewMetrics` in module.go: switch on `Config.Provider`;
"prometheus" and "noop" select the matching backend, anything else logs
a warning and falls back to noop. The second component is the error
return, which is nil on every path. -/
def NewMetrics (cfg : Config) : NewMetricsResult × Option String :=
  if cfg.Provider = "prometheus" then
    ({ provider := .prometheus cfg.Prometheus, warnings := [] }, none)
  else if cfg.Provider = "noop" then
    ({ provider := .noop, warnings := [] }, none)
  else
    ({ provider := .noop, warnings := [unknownProviderWarning] }, none)

/-- The four creation methods of the `Provider` interface in metrics.go,
abstracted over the four instance types the backend returns, as the
facade sees them. -/
structure ProviderOps (C G H S : Type) where
  counter : String → Options → C
  gauge : String → Options → G
  histogram : String → Options → H
  summary : String → Options → S

/-- Mirror of `metricsImpl` in module.go: holds the provider and the
logger reference, nothing else. -/
structure metricsImpl (C G H S L : Type) where
  provider : ProviderOps C G H S
  logger : L

/-- Mirror of `metricsImpl.Counter`: resolve the options and delegate. -/
def metricsImpl.Counter {C G H S L : Type} (m : metricsImpl C G H S L)
    (name : String) (opts : List OptionMod) : C :=
  m.provider.counter name (applyOptions opts)

/-- Mirror of `metricsImpl.Gauge`. -/
def metricsImpl.Gauge {C G H S L : Type} (m : metricsImpl C G H S L)
    (name : String) (opts : List OptionMod) : G :=
  m.provider.gauge name (applyOptions opts)

/-- Mirror of `metricsImpl.Histogram`. -/
def metricsImpl.Histogram {C G H S L : Type} (m : metricsImpl C G H S L)
    (name : String) (opts : List OptionMod) : H :=
  m.provider.histogram name (applyOptions opts)

/-- Mirror of `metricsImpl.Summary`. -/
def metricsImpl.Summary {C G H S L : Type} (m : metricsImpl C G H S L)
    (name : String) (opts : List OptionMod) : S :=
  m.provider.summary name (applyOptions opts)

theorem lookup_append_left {β : Type} {l : List (String × β)} (l' : List (String × β))
    {k : String} {v : β} (h : l.lookup k = some v) : (l ++ l').lookup k = some v := by
  induction l with
  | nil => simp [List.lookup] at h
  | cons p t ih =>
    obtain ⟨k0, v0⟩ := p
    rw [List.cons_append]
    rw [List.lookup] at h ⊢
    cases hk : (k == k0) with
    | true => rw [hk] at h; exact h
    | false => rw [hk] at h; exact ih h

theorem lookup_append_fresh {β : Type} {l : List (String × β)} {k : String} (v : β)
    (h : l.lookup k = none) : (l ++ [(k, v)]).lookup k = some v := by
  induction l with
  | nil => simp [List.lookup]
  | cons p t ih =>
    obtain ⟨k0, v0⟩ := p
    rw [List.cons_append]
    rw [List.lookup] at h ⊢
    cases hk : (k == k0) with
    | true => rw [hk] at h; simp at h
    | false => rw [hk] at h; exact ih h

theorem counter_call_caches (cfg : PrometheusConfig) (s : prometheusProviderState)
    (name : String) (options : Options) :
    (prometheusCounter cfg s name options).2.counters.lookup (metricKey cfg name options)
      = some (prometheusCounter cfg s name options).1 := by
  unfold prometheusCounter
  cases h : s.counters.lookup (metricKey cfg name options) with
  | some c => simp [h]
  | none => simpa [h] using lookup_append_fresh _ h

theorem counter_hit (cfg : PrometheusConfig) (s : prometheusProviderState)
    (name : String) (options : Options) {c : prometheusCounterVec}
    (h : s.counters.lookup (metricKey cfg name options) = some c) :
    (prometheusCounter cfg s name options).1 = c := by
  unfold prometheusCounter
  simp [h]

theorem gauge_call_caches (cfg : PrometheusConfig) (s : prometheusProviderState)
    (name : String) (options : Options) :
    (prometheusGauge cfg s name options).2.gauges.lookup (metricKey cfg name options)
      = some (prometheusGauge cfg s name options).1 := by
  unfold prometheusGauge
  cases h : s.gauges.lookup (metricKey cfg name options) with
  | some g => simp [h]
  | none => simpa [h] using lookup_append_fresh _ h

theorem gauge_hit (cfg : PrometheusConfig) (s : prometheusProviderState)
    (name : String) (options : Options) {g : prometheusGaugeVec}
    (h : s.gauges.lookup (metricKey cfg name options) = some g) :
    (prometheusGauge cfg s name options).1 = g := by
  unfold prometheusGauge
  simp [h]

theorem histogram_call_caches (cfg : PrometheusConfig) (s : prometheusProviderState)
    (name : String) (options : Options) :
    (prometheusHistogram cfg s name options).2.histograms.lookup (metricKey cfg name options)
      = some (prometheusHistogram cfg s name options).1 := by
  unfold prometheusHistogram
  cases h : s.histograms.lookup (metricKey cfg name options) with
  | some hh => simp [h]
  | none => simpa [h] using lookup_append_fresh _ h

theorem histogram_hit (cfg : PrometheusConfig) (s : prometheusProviderState)
    (name : String) (options : Options) {hh : prometheusHistogramVec}
    (h : s.histograms.lookup (metricKey cfg name options) = some hh) :
    (prometheusHistogram cfg s name options).1 = hh := by
  unfold prometheusHistogram
  simp [h]

theorem summary_call_caches (cfg : PrometheusConfig) (s : prometheusProviderState)
    (name : String) (options : Options) :
    (prometheusSummary cfg s name options).2.summaries.lookup (metricKey cfg name options)
      = some (prometheusSummary cfg s name options).1 := by
  unfold prometheusSummary
  cases h : s.summaries.lookup (metricKey cfg name options) with
  | some sm => simp [h]
  | none => simpa [h] using lookup_append_fresh _ h

theorem summary_hit (cfg : PrometheusConfig) (s : prometheusProviderState)
    (name : String) (options : Options) {sm : prometheusSummaryVec}
    (h : s.summaries.lookup (metricKey cfg name options) = some sm) :
    (prometheusSummary cfg s name options).1 = sm := by
  unfold prometheusSummary
  simp [h]

theorem runOp_counters_mono (cfg : PrometheusConfig) (s : prometheusProviderState)
    (op : MetricOp) {k : String} {c : prometheusCounterVec}
    (h : s.counters.lookup k = some c) : ((runOp cfg s op).counters.lookup k = some c) := by
  cases op with
  | counter name options =>
    simp only [runOp]
    unfold prometheusCounter
    cases hl : s.counters.lookup (metricKey cfg name options) with
    | some c0 => simpa [hl] using h
    | none => simpa [hl] using lookup_append_left _ h
  | gauge name options =>
    simp only [runOp]
    unfold prometheusGauge
    cases hl : s.gauges.lookup (metricKey cfg name options) with
    | some g0 => simpa [hl] using h
    | none => simpa [hl] using h
  | histogram name options =>
    simp only [runOp]
    unfold prometheusHistogram
    cases hl : s.histograms.lookup (metricKey cfg name options) with
    | some h0 => simpa [hl] using h
    | none => simpa [hl] using h
  | summary name options =>
    simp only [runOp]
    unfold prometheusSummary
    cases hl : s.summaries.lookup (metricKey cfg name options) with
    | some s0 => simpa [hl] using h
    | none => simpa [hl] using h

theorem runOp_gauges_mono (cfg : PrometheusConfig) (s : prometheusProviderState)
    (op : MetricOp) {k : String} {g : prometheusGaugeVec}
    (h : s.gauges.lookup k = some g) : ((runOp cfg s op).gauges.lookup k = some g) := by
  cases op with
  | counter name options =>
    simp only [runOp]
    unfold prometheusCounter
    cases hl : s.counters.lookup (metricKey cfg name options) with
    | some c0 => simpa [hl] using h
    | none => simpa [hl] using h
  | gauge name options =>
    simp only [runOp]
    unfold prometheusGauge
    cases hl : s.gauges.lookup (metricKey cfg name options) with
    | some g0 => simpa [hl] using h
    | none => simpa [hl] using lookup_append_left _ h
  | histogram name options =>
    simp only [runOp]
    unfold prometheusHistogram
    cases hl : s.histograms.lookup (metricKey cfg name options) with
    | some h0 => simpa [hl] using h
    | none => simpa [hl] using h
  | summary name options =>
    simp only [runOp]
    unfold prometheusSummary
    cases hl : s.summaries.lookup (metricKey cfg name options) with
    | some s0 => simpa [hl] using h
    | none => simpa [hl] using h

theorem runOp_histograms_mono (cfg : PrometheusConfig) (s : prometheusProviderState)
    (op : MetricOp) {k : String} {hg : prometheusHistogramVec}
    (h : s.histograms.lookup k = some hg) : ((runOp cfg s op).histograms.lookup k = some hg) := by
  cases op with
  | counter name options =>
    simp only [runOp]
    unfold prometheusCounter
    cases hl : s.counters.lookup (metricKey cfg name options) with
    | some c0 => simpa [hl] using h
    | none => simpa [hl] using h
  | gauge name options =>
    simp only [runOp]
    unfold prometheusGauge
    cases hl : s.gauges.lookup (metricKey cfg name options) with
    | some g0 => simpa [hl] using h
    | none => simpa [hl] using h
  | histogram name options =>
    simp only [runOp]
    unfold prometheusHistogram
    cases hl : s.histograms.lookup (metricKey cfg name options) with
    | some h0 => simpa [hl] using h
    | none => simpa [hl] using lookup_append_left _ h
  | summary name options =>
    simp only [runOp]
    unfold prometheusSummary
    cases hl : s.summaries.lookup (metricKey cfg name options) with
    | some s0 => simpa [hl] using h
    | none => simpa [hl] using h

theorem runOp_summaries_mono (cfg : PrometheusConfig) (s : prometheusProviderState)
    (op : MetricOp) {k : String} {sm : prometheusSummaryVec}
    (h : s.summaries.lookup k = some sm) : ((runOp cfg s op).summaries.lookup k = some sm) := by
  cases op with
  | counter name options =>
    simp only [runOp]
    unfold prometheusCounter
    cases hl : s.counters.lookup (metricKey cfg name options) with
    | some c0 => simpa [hl] using h
    | none => simpa [hl] using h
  | gauge name options =>
    simp only [runOp]
    unfold prometheusGauge
    cases hl : s.gauges.lookup (metricKey cfg name options) with
    | some g0 => simpa [hl] using h
    | none => simpa [hl] using h
  | histogram name options =>
    simp only [runOp]
    unfold prometheusHistogram
    cases hl : s.histograms.lookup (metricKey cfg name options) with
    | some h0 => simpa [hl] using h
    | none => simpa [hl] using h
  | summary name options =>
    simp only [runOp]
    unfold prometheusSummary
    cases hl : s.summaries.lookup (metricKey cfg name options) with
    | some s0 => simpa [hl] using h
    | none => simpa [hl] using lookup_append_left _ h

theorem runOps_counters_mono (cfg : PrometheusConfig) (ops : List MetricOp)
    {s : prometheusProviderState} {k : String} {c : prometheusCounterVec}
    (h : s.counters.lookup k = some c) : ((runOps cfg s ops).counters.lookup k = some c) := by
  induction ops generalizing s with
  | nil => exact h
  | cons op rest ih => exact ih (runOp_counters_mono cfg s op h)

theorem runOps_gauges_mono (cfg : PrometheusConfig) (ops : List MetricOp)
    {s : prometheusProviderState} {k : String} {g : prometheusGaugeVec}
    (h : s.gauges.lookup k = some g) : ((runOps cfg s ops).gauges.lookup k = some g) := by
  induction ops generalizing s with
  | nil => exact h
  | cons op rest ih => exact ih (runOp_gauges_mono cfg s op h)

theorem runOps_histograms_mono (cfg : PrometheusConfig) (ops : List MetricOp)
    {s : prometheusProviderState} {k : String} {hg : prometheusHistogramVec}
    (h : s.histograms.lookup k = some hg) : ((runOps cfg s ops).histograms.lookup k = some hg) := by
  induction ops generalizing s with
  | nil => exact h
  | cons op rest ih => exact ih (runOp_histograms_mono cfg s op h)

theorem runOps_summaries_mono (cfg : PrometheusConfig) (ops : List MetricOp)
    {s : prometheusProviderState} {k : String} {sm : prometheusSummaryVec}
    (h : s.summaries.lookup k = some sm) : ((runOps cfg s ops).summaries.lookup k = some sm) := by
  induction ops generalizing s with
  | nil => exact h
  | cons op rest ih => exact ih (runOp_summaries_mono cfg s op h)

theorem metricKey_of_identity (cfg : PrometheusConfig) (name : String) {o1 o2 : Options}
    (hns : namespaceOf cfg o1 = namespaceOf cfg o2)
    (hsub : subsystemOf cfg o1 = subsystemOf cfg o2) :
    metricKey cfg name o1 = metricKey cfg name o2 := by
  unfold metricKey
  rw [hns, hsub]

/-- Claim C1: for a fixed Prometheus provider and a fixed metric kind, any
two create-or-retrieve calls whose arguments resolve to the same identity
(resolved namespace, resolved subsystem, name) return the same metric
instance regardless of differing options on the later call — even with
arbitrary other calls in between — and every cached (key, kind) → instance
entry survives any sequence of calls unchanged (never removed or
replaced) within the provider's lifetime. -/
theorem counter_memoized_invariant (cfg : PrometheusConfig) (s : prometheusProviderState)
    (name : String) (o1 o2 : Options) (ops : List MetricOp)
    (kc kg kh ks : String) (c : prometheusCounterVec) (g : prometheusGaugeVec)
    (hg : prometheusHistogramVec) (sm : prometheusSummaryVec)
    (hns : namespaceOf cfg o1 = namespaceOf cfg o2)
    (hsub : subsystemOf cfg o1 = subsystemOf cfg o2)
    (hc : s.counters.lookup kc = some c) (hgl : s.gauges.lookup kg = some g)
    (hhl : s.histograms.lookup kh = some hg) (hsl : s.summaries.lookup ks = some sm) :
    (prometheusCounter cfg (runOps cfg (prometheusCounter cfg s name o1).2 ops) name o2).1
      = (prometheusCounter cfg s name o1).1 ∧
    (prometheusGauge cfg (runOps cfg (prometheusGauge cfg s name o1).2 ops) name o2).1
      = (prometheusGauge cfg s name o1).1 ∧
    (prometheusHistogram cfg (runOps cfg (prometheusHistogram cfg s name o1).2 ops) name o2).1
      = (prometheusHistogram cfg s name o1).1 ∧
    (prometheusSummary cfg (runOps cfg (prometheusSummary cfg s name o1).2 ops) name o2).1
      = (prometheusSummary cfg s name o1).1 ∧
    (runOps cfg s ops).counters.lookup kc = some c ∧
    (runOps cfg s ops).gauges.lookup kg = some g ∧
    (runOps cfg s ops).histograms.lookup kh = some hg ∧
    (runOps cfg s ops).summaries.lookup ks = some sm := by
  have hkey := metricKey_of_identity cfg name hns hsub
  refine ⟨?_, ?_, ?_, ?_, runOps_counters_mono cfg ops hc, runOps_gauges_mono cfg ops hgl,
    runOps_histograms_mono cfg ops hhl, runOps_summaries_mono cfg ops hsl⟩
  · have h2 := runOps_counters_mono cfg ops (counter_call_caches cfg s name o1)
    rw [hkey] at h2
    exact counter_hit cfg _ name o2 h2
  · have h2 := runOps_gauges_mono cfg ops (gauge_call_caches cfg s name o1)
    rw [hkey] at h2
    exact gauge_hit cfg _ name o2 h2
  · have h2 := runOps_histograms_mono cfg ops (histogram_call_caches cfg s name o1)
    rw [hkey] at h2
    exact histogram_hit cfg _ name o2 h2
  · have h2 := runOps_summaries_mono cfg ops (summary_call_caches cfg s name o1)
    rw [hkey] at h2
    exact summary_hit cfg _ name o2 h2

/-- A concrete provider configuration used by the witnesses. -/
def cfgW : PrometheusConfig :=
  { Namespace := "app", Subsystem := "db", Path := "/metrics", Port := 0,
    EnableProcessMetrics := true, EnableGoMetrics := true }

/-- A concrete reachable provider state with one instance of each kind
already cached. -/
def sW : prometheusProviderState :=
  { counters := [("app_db_c0", { id := 0, labels := [] })]
    gauges := [("app_db_g0", { id := 1, labels := [] })]
    histograms := [("app_db_h0", { id := 2, labels := [] })]
    summaries := [("app_db_s0", { id := 3, labels := [] })]
    registered := ["app_db_c0", "app_db_g0", "app_db_h0", "app_db_s0"]
    nextId := 4 }

/-- First-call options used by the witnesses. -/
def o1W : Options :=
  { Help := "first", Labels := ["method"], Buckets := DefaultBuckets,
    Objectives := DefaultObjectives, Namespace := "", Subsystem := "" }

/-- Later-call options, differing from `o1W` in every non-identity field. -/
def o2W : Options :=
  { Help := "second", Labels := [], Buckets := [1],
    Objectives := [], Namespace := "", Subsystem := "" }

/-- Intervening calls run between the two calls of the witnesses. -/
def opsW : List MetricOp :=
  [MetricOp.counter "other" o2W, MetricOp.gauge "q" o1W, MetricOp.summary "q" o2W]

/-- Witness for C1 at concrete inputs. -/
theorem counter_memoized_invariant_witness :
    (prometheusCounter cfgW (runOps cfgW (prometheusCounter cfgW sW "q" o1W).2 opsW) "q" o2W).1
      = (prometheusCounter cfgW sW "q" o1W).1 ∧
    (prometheusGauge cfgW (runOps cfgW (prometheusGauge cfgW sW "q" o1W).2 opsW) "q" o2W).1
      = (prometheusGauge cfgW sW "q" o1W).1 ∧
    (prometheusHistogram cfgW (runOps cfgW (prometheusHistogram cfgW sW "q" o1W).2 opsW) "q" o2W).1
      = (prometheusHistogram cfgW sW "q" o1W).1 ∧
    (prometheusSummary cfgW (runOps cfgW (prometheusSummary cfgW sW "q" o1W).2 opsW) "q" o2W).1
      = (prometheusSummary cfgW sW "q" o1W).1 ∧
    (runOps cfgW sW opsW).counters.lookup "app_db_c0" = some { id := 0, labels := [] } ∧
    (runOps cfgW sW opsW).gauges.lookup "app_db_g0" = some { id := 1, labels := [] } ∧
    (runOps cfgW sW opsW).histograms.lookup "app_db_h0" = some { id := 2, labels := [] } ∧
    (runOps cfgW sW opsW).summaries.lookup "app_db_s0" = some { id := 3, labels := [] } :=
  counter_memoized_invariant cfgW sW "q" o1W o2W opsW
    "app_db_c0" "app_db_g0" "app_db_h0" "app_db_s0"
    { id := 0, labels := [] } { id := 1, labels := [] }
    { id := 2, labels := [] } { id := 3, labels := [] }
    (by decide) (by decide) (by decide) (by decide) (by decide) (by decide)

/-- Configuration with empty provider-wide namespace and subsystem, used
to exhibit the key collision. -/
def cfgEmpty : PrometheusConfig :=
  { Namespace := "", Subsystem := "", Path := "/metrics", Port := 0,
    EnableProcessMetrics := false, EnableGoMetrics := false }

/-- Options with namespace "a" and subsystem "b_c". -/
def oColA : Options :=
  { Help := "", Labels := [], Buckets := DefaultBuckets,
    Objectives := DefaultObjectives, Namespace := "a", Subsystem := "b_c" }

/-- Options with namespace "a_b" and subsystem "c". -/
def oColB : Options :=
  { Help := "", Labels := [], Buckets := DefaultBuckets,
    Objectives := DefaultObjectives, Namespace := "a_b", Subsystem := "c" }

/-- Claim C9: metricKey joins namespace, subsystem and name with
underscores and is not injective over identities: the distinct identities
(a, b_c, m) and (a_b, c, m) produce the same key "a_b_c_m", so the
create-or-retrieve call for the second identity returns the cached
instance created for the first. -/
theorem metricKey_not_injective :
    metricIdentity cfgEmpty "m" oColA ≠ metricIdentity cfgEmpty "m" oColB ∧
    metricKey cfgEmpty "m" oColA = metricKey cfgEmpty "m" oColB ∧
    metricKey cfgEmpty "m" oColA = "a_b_c_m" ∧
    (prometheusCounter cfgEmpty
        (prometheusCounter cfgEmpty (newPrometheusProviderState cfgEmpty) "m" oColA).2
        "m" oColB).1
      = (prometheusCounter cfgEmpty (newPrometheusProviderState cfgEmpty) "m" oColA).1 := by
  refine ⟨by decide, by decide, by decide, by decide⟩

/-- A non-zero-port configuration for the Start counterexample. -/
def cfg9090 : PrometheusConfig :=
  { Namespace := "", Subsystem := "", Path := "/metrics", Port := 9090,
    EnableProcessMetrics := true, EnableGoMetrics := true }

/-- A bind failure as ListenAndServe reports it. -/
def bindFailure : String := "listen tcp :9090: bind: address already in use"

/-- Claim C2 counterexample: with a separate transport configured
(port 9090) and the listener failing to bind, Start still returns a nil
error — the bind failure is NOT reported through the error return of
Start, only through asynchronous error logging. -/
theorem start_bind_error_not_returned :
    (prometheusStart cfg9090 (some bindFailure)).returned = none ∧
    (prometheusStart cfg9090 (some bindFailure)).asyncErrorLogged = true := by
  refine ⟨by decide, by decide⟩

/-- Claim C2 (amended): when a separate exposition transport is
configured (non-zero port), Start spawns the server in the background and
returns a nil error without blocking past the spawn; a failure of the
listener to bind or serve (any ListenAndServe error other than
ErrServerClosed) is reported through asynchronous error logging, never
through the error return of Start and never by crashing the host
process. -/
theorem start_nonblocking_async_errors (cfg : PrometheusConfig) (e : String)
    (hport : cfg.Port ≠ 0) (he : e ≠ ErrServerClosed) :
    (prometheusStart cfg (some e)).returned = none ∧
    (prometheusStart cfg (some e)).blocksPastSpawn = false ∧
    (prometheusStart cfg (some e)).serverConfigured = true ∧
    (prometheusStart cfg (some e)).asyncErrorLogged = true := by
  unfold prometheusStart
  rw [if_neg hport]
  refine ⟨rfl, rfl, rfl, ?_⟩
  simpa using he

/-- Witness for the amended C2 at the concrete bind failure. -/
theorem start_nonblocking_async_errors_witness :
    (prometheusStart cfg9090 (some bindFailure)).returned = none ∧
    (prometheusStart cfg9090 (some bindFailure)).blocksPastSpawn = false ∧
    (prometheusStart cfg9090 (some bindFailure)).serverConfigured = true ∧
    (prometheusStart cfg9090 (some bindFailure)).asyncErrorLogged = true :=
  start_nonblocking_async_errors cfg9090 bindFailure (by decide) (by decide)

/-- Claim C3: Histogram.Timer captures the current timestamp and the label
values; Stop at a later clock reading computes elapsed = now - start on
the same clock, observes elapsed in seconds into the parent histogram
under the captured labels, and returns the elapsed native duration;
ObserveDuration performs the identical observation discarding the
duration; a second call re-measures from the original start timestamp. -/
theorem timer_semantics (labels : List String) (t0 now now2 : Int) (h : HistogramData) :
    (prometheusHistogramTimer labels t0).start = t0 ∧
    (prometheusHistogramTimer labels t0).labels = labels ∧
    timerStop (prometheusHistogramTimer labels t0) now h
      = (now - t0, histObserve h (durationSeconds (now - t0)) labels) ∧
    timerObserveDuration (prometheusHistogramTimer labels t0) now h
      = (timerStop (prometheusHistogramTimer labels t0) now h).2 ∧
    (timerStop (prometheusHistogramTimer labels t0) now2
        (timerStop (prometheusHistogramTimer labels t0) now h).2)
      = (now2 - t0, histObserve (histObserve h (durationSeconds (now - t0)) labels)
          (durationSeconds (now2 - t0)) labels) := by
  refine ⟨rfl, rfl, rfl, rfl, rfl⟩

/-- Claim C4: a configuration whose provider string is neither
"prometheus" nor "noop" falls back to the no-op provider with a logged
warning and a nil error; the selected no-op backend's lifecycle always
succeeds. -/
theorem newMetrics_unknown_falls_back (cfg : Config)
    (h1 : cfg.Provider ≠ "prometheus") (h2 : cfg.Provider ≠ "noop") :
    (NewMetrics cfg).1.provider = SelectedProvider.noop ∧
    (NewMetrics cfg).1.warnings = [unknownProviderWarning] ∧
    (NewMetrics cfg).2 = none ∧
    noopStart = none ∧ noopStop = none := by
  unfold NewMetrics
  rw [if_neg h1, if_neg h2]
  exact ⟨rfl, rfl, rfl, rfl, rfl⟩

/-- The invalid configuration of end-to-end scenario 2. -/
def cfgDatadog : Config :=
  { Enabled := true, Provider := "datadog", Prometheus := cfgEmpty }

/-- Witness for C4 at provider string "datadog". -/
theorem newMetrics_unknown_falls_back_witness :
    (NewMetrics cfgDatadog).1.provider = SelectedProvider.noop ∧
    (NewMetrics cfgDatadog).1.warnings = [unknownProviderWarning] ∧
    (NewMetrics cfgDatadog).2 = none ∧
    noopStart = none ∧ noopStop = none :=
  newMetrics_unknown_falls_back cfgDatadog (by decide) (by decide)

/-- Claim C5: each facade entry point returns exactly the active
provider's corresponding method applied to the name and the resolved
options (modifiers applied over the global defaults); the result depends
only on the held provider reference (in particular not on the logger),
and no caching intervenes. -/
theorem facade_delegates {C G H S L : Type} (m : metricsImpl C G H S L)
    (name : String) (opts : List OptionMod) :
    m.Counter name opts = m.provider.counter name (applyOptions opts) ∧
    m.Gauge name opts = m.provider.gauge name (applyOptions opts) ∧
    m.Histogram name opts = m.provider.histogram name (applyOptions opts) ∧
    m.Summary name opts = m.provider.summary name (applyOptions opts) := by
  exact ⟨rfl, rfl, rfl, rfl⟩

/-- Claim C6: applyOptions with zero modifiers yields the defaults (empty
labels, default buckets, default objectives, empty help, namespace and
subsystem); modifiers are applied in call order; each modifier sets
exactly one field, leaving the other five unchanged; hence on conflicting
fields the later modifier wins. -/
theorem applyOptions_defaults_and_order (o : Options) (f : OptionMod) (ms : List OptionMod)
    (h h2 : String) (ls ls2 : List String) (bs bs2 : List ℚ)
    (obj obj2 : List (ℚ × ℚ)) (ns ns2 sub sub2 : String) :
    applyOptions []
      = { Help := "", Labels := [], Buckets := DefaultBuckets,
          Objectives := DefaultObjectives, Namespace := "", Subsystem := "" } ∧
    applyOptions (ms ++ [f]) = f (applyOptions ms) ∧
    ((WithHelp h o).Help = h ∧ (WithHelp h o).Labels = o.Labels ∧
      (WithHelp h o).Buckets = o.Buckets ∧ (WithHelp h o).Objectives = o.Objectives ∧
      (WithHelp h o).Namespace = o.Namespace ∧ (WithHelp h o).Subsystem = o.Subsystem) ∧
    ((WithLabels ls o).Labels = ls ∧ (WithLabels ls o).Help = o.Help ∧
      (WithLabels ls o).Buckets = o.Buckets ∧ (WithLabels ls o).Objectives = o.Objectives ∧
      (WithLabels ls o).Namespace = o.Namespace ∧ (WithLabels ls o).Subsystem = o.Subsystem) ∧
    ((WithBuckets bs o).Buckets = bs ∧ (WithBuckets bs o).Help = o.Help ∧
      (WithBuckets bs o).Labels = o.Labels ∧ (WithBuckets bs o).Objectives = o.Objectives ∧
      (WithBuckets bs o).Namespace = o.Namespace ∧ (WithBuckets bs o).Subsystem = o.Subsystem) ∧
    ((WithObjectives obj o).Objectives = obj ∧ (WithObjectives obj o).Help = o.Help ∧
      (WithObjectives obj o).Labels = o.Labels ∧ (WithObjectives obj o).Buckets = o.Buckets ∧
      (WithObjectives obj o).Namespace = o.Namespace ∧
      (WithObjectives obj o).Subsystem = o.Subsystem) ∧
    ((WithNamespace ns o).Namespace = ns ∧ (WithNamespace ns o).Help = o.Help ∧
      (WithNamespace ns o).Labels = o.Labels ∧ (WithNamespace ns o).Buckets = o.Buckets ∧
      (WithNamespace ns o).Objectives = o.Objectives ∧
      (WithNamespace ns o).Subsystem = o.Subsystem) ∧
    ((WithSubsystem sub o).Subsystem = sub ∧ (WithSubsystem sub o).Help = o.Help ∧
      (WithSubsystem sub o).Labels = o.Labels ∧ (WithSubsystem sub o).Buckets = o.Buckets ∧
      (WithSubsystem sub o).Objectives = o.Objectives ∧
      (WithSubsystem sub o).Namespace = o.Namespace) ∧
    (WithHelp h2 (WithHelp h o) = WithHelp h2 o ∧
      WithLabels ls2 (WithLabels ls o) = WithLabels ls2 o ∧
      WithBuckets bs2 (WithBuckets bs o) = WithBuckets bs2 o ∧
      WithObjectives obj2 (WithObjectives obj o) = WithObjectives obj2 o ∧
      WithNamespace ns2 (WithNamespace ns o) = WithNamespace ns2 o ∧
      WithSubsystem sub2 (WithSubsystem sub o) = WithSubsystem sub2 o) := by
  refine ⟨rfl, ?_, ⟨rfl, rfl, rfl, rfl, rfl, rfl⟩, ⟨rfl, rfl, rfl, rfl, rfl, rfl⟩,
    ⟨rfl, rfl, rfl, rfl, rfl, rfl⟩, ⟨rfl, rfl, rfl, rfl, rfl, rfl⟩,
    ⟨rfl, rfl, rfl, rfl, rfl, rfl⟩, ⟨rfl, rfl, rfl, rfl, rfl, rfl⟩,
    ⟨rfl, rfl, rfl, rfl, rfl, rfl⟩⟩
  unfold applyOptions
  rw [List.foldl_append]
  rfl

/-- Claim C7: the resolved namespace (respectively subsystem) used in a
metric's identity equals the per-metric override when it is non-empty,
and the provider-wide configured default otherwise. -/
theorem namespace_subsystem_resolution (cfg : PrometheusConfig) (o : Options) :
    (o.Namespace ≠ "" → namespaceOf cfg o = o.Namespace) ∧
    (o.Namespace = "" → namespaceOf cfg o = cfg.Namespace) ∧
    (o.Subsystem ≠ "" → subsystemOf cfg o = o.Subsystem) ∧
    (o.Subsystem = "" → subsystemOf cfg o = cfg.Subsystem) := by
  unfold namespaceOf subsystemOf
  refine ⟨fun hne => if_pos hne, fun he => ?_, fun hne => if_pos hne, fun he => ?_⟩
  · rw [if_neg]; simp [he]
  · rw [if_neg]; simp [he]

/-- Options with a namespace override and no subsystem override. -/
def oNsOnly : Options :=
  { Help := "", Labels := [], Buckets := DefaultBuckets,
    Objectives := DefaultObjectives, Namespace := "ov", Subsystem := "" }

/-- Witness for C7: override wins for the namespace, the configured
default fills the empty subsystem. -/
theorem namespace_subsystem_resolution_witness :
    namespaceOf cfgW oNsOnly = "ov" ∧ subsystemOf cfgW oNsOnly = "db" :=
  ⟨(namespace_subsystem_resolution cfgW oNsOnly).1 (by decide),
    (namespace_subsystem_resolution cfgW oNsOnly).2.2.2 (by decide)⟩

/-- Claim C8: every no-op backend operation across the four metric kinds
and the Timer, at any arguments and over any observable world, leaves the
world unchanged and returns zero-valued results; the no-op provider's
Start and Stop always return a nil error. -/
theorem noop_total_no_effect {α : Type} (w : α) (value : ℚ) (labels : List String) :
    noopCounterInc labels w = w ∧ noopCounterAdd value labels w = w ∧
    noopGaugeSet value labels w = w ∧ noopGaugeInc labels w = w ∧
    noopGaugeDec labels w = w ∧ noopGaugeAdd value labels w = w ∧
    noopGaugeSub value labels w = w ∧
    noopHistogramObserve value labels w = w ∧
    noopSummaryObserve value labels w = w ∧
    noopTimerObserveDuration w = w ∧ noopTimerStop w = (0, w) ∧
    noopStart = none ∧ noopStop = none := by
  exact ⟨rfl, rfl, rfl, rfl, rfl, rfl, rfl, rfl, rfl, rfl, rfl, rfl, rfl⟩

/-- Claim C10: NewMetrics never reads Config.Enabled — flipping only the
Enabled field leaves the selected provider and the whole observable
result unchanged. -/
theorem newMetrics_ignores_enabled (cfg : Config) (b : Bool) :
    NewMetrics { cfg with Enabled := b } = NewMetrics cfg := rfl

end Metricsx
